import Mathlib

/-!
Shallow embedding of `src/weather.rs` (zellij-tab-bar-baz): the weather
widget's fetch state machine, timer-driven refresh policy, response
handler, weather-code classification, and the serde-based response
decoders, together with theorems settling the spec claims.
-/

namespace WeatherRs

/-- Embeds `zellij_tile`'s `HttpVerb` (only `Get` is used by this code). -/
inductive HttpVerb
  | Get
  | Post
  deriving DecidableEq, Repr

/-- An outbound `web_request(url, verb, headers, body, context)` call,
recorded as data: the state machine's only side effect. -/
structure WebRequest where
  url : String
  verb : HttpVerb
  headers : List (String × String)
  body : List Nat
  context : List (String × String)
  deriving DecidableEq, Repr

/-- Embeds `enum FetchState { Idle, FetchingLocation, FetchingForecast }`. -/
inductive FetchState
  | Idle
  | FetchingLocation
  | FetchingForecast
  deriving DecidableEq, Repr

/-- Embeds `chrono::DateTime<Utc>` at the granularity this code observes:
calendar fields down to the minute.  `Timelike::hour()` is the `hour`
field (0–23). -/
structure DateTimeUtc where
  year : Int
  month : Nat
  day : Nat
  hour : Nat
  minute : Nat
  deriving DecidableEq, Repr

/-- Embeds `enum WeatherCode` from `src/weather.rs` (lines 95–125).
`Unknown` carries the raw `u32` code, modelled as `Nat`. -/
inductive WeatherCode
  | ClearSky
  | MainlyClear
  | PartlyCloudy
  | Overcast
  | Fog
  | RimeFog
  | DrizzleLight
  | DrizzleModerate
  | DrizzleDense
  | FreezingDrizzleLight
  | FreezingDrizzleHeavy
  | RainSlight
  | RainModerate
  | RainHeavy
  | FreezingRainLight
  | FreezingRainHeavy
  | SnowFallSlight
  | SnowFallModerate
  | SnowFallHeavy
  | SnowGrains
  | RainShowersSlight
  | RainShowersModerate
  | RainShowersViolent
  | SnowShowersSlight
  | SnowShowersHeavy
  | Thunderstorm
  | ThunderstormSlightHail
  | ThunderstormHeavyHail
  | Unknown (code : Nat)
  deriving DecidableEq, Repr

/-- Embeds `enum NeedsUmbrella { No, Maybe, Sure }`. -/
inductive NeedsUmbrella
  | No
  | Maybe
  | Sure
  deriving DecidableEq, Repr

/-- Embeds `WeatherCode::need_umbrella` (lines 133–161): the two explicit
match arms, then the `_ => NeedsUmbrella::No` fallback. -/
def WeatherCode.need_umbrella : WeatherCode → NeedsUmbrella
  | .DrizzleLight
  | .DrizzleModerate
  | .SnowFallSlight
  | .SnowGrains
  | .SnowShowersSlight => .Maybe
  | .DrizzleDense
  | .FreezingDrizzleLight
  | .FreezingDrizzleHeavy
  | .RainSlight
  | .RainModerate
  | .RainHeavy
  | .SnowFallModerate
  | .SnowFallHeavy
  | .RainShowersSlight
  | .RainShowersModerate
  | .RainShowersViolent
  | .SnowShowersHeavy
  | .Thunderstorm
  | .ThunderstormSlightHail
  | .ThunderstormHeavyHail => .Sure
  | _ => .No

/-- Embeds `impl From<u32> for WeatherCode` (lines 163–197).  The `u32`
argument is modelled as `Nat`; any code outside the table maps to
`Unknown`. -/
def WeatherCode.fromCode : Nat → WeatherCode
  | 0 => .ClearSky
  | 1 => .MainlyClear
  | 2 => .PartlyCloudy
  | 3 => .Overcast
  | 45 => .Fog
  | 48 => .RimeFog
  | 51 => .DrizzleLight
  | 53 => .DrizzleModerate
  | 55 => .DrizzleDense
  | 56 => .FreezingDrizzleLight
  | 57 => .FreezingDrizzleHeavy
  | 61 => .RainSlight
  | 63 => .RainModerate
  | 65 => .RainHeavy
  | 66 => .FreezingRainLight
  | 67 => .FreezingRainHeavy
  | 71 => .SnowFallSlight
  | 73 => .SnowFallModerate
  | 75 => .SnowFallHeavy
  | 77 => .SnowGrains
  | 80 => .RainShowersSlight
  | 81 => .RainShowersModerate
  | 82 => .RainShowersViolent
  | 85 => .SnowShowersSlight
  | 86 => .SnowShowersHeavy
  | 95 => .Thunderstorm
  | 96 => .ThunderstormSlightHail
  | 99 => .ThunderstormHeavyHail
  | x => .Unknown x

/-- Model of `chrono_tz::Tz`: an IANA timezone, identified by its zone
name. -/
structure Tz where
  name : String
  deriving DecidableEq, Repr

/-- Model of the IANA zone-name table behind `str::parse::<Tz>()`,
restricted to the zones exercised in this development; parsing succeeds
exactly on the table's names. -/
def tzTable : List String :=
  ["Asia/Tokyo", "Asia/Seoul", "America/New_York", "Europe/London", "UTC"]

/-- Model of `str::parse::<Tz>()`: succeeds iff the string is a known
IANA zone name. -/
def Tz.parse (s : String) : Option Tz :=
  if s ∈ tzTable then some ⟨s⟩ else none

/-- Embeds `Tz::to_string()`: the zone name. -/
def Tz.render (tz : Tz) : String := tz.name

/-- A JSON value, as seen by `serde_json`.  Numbers are modelled as exact
rationals (`f32` rounding is irrelevant to every claim). -/
inductive Json
  | null
  | bool (b : Bool)
  | num (q : ℚ)
  | str (s : String)
  | arr (elts : List Json)
  | obj (fields : List (String × Json))

/-- A JSON number holding a natural value. -/
def Json.natNum (n : Nat) : Json := .num (n : ℚ)

/-- Field lookup in a JSON object, as serde's derived deserializer does
per declared struct field; a missing field is a decode error (`none`). -/
def getField (fields : List (String × Json)) (name : String) : Option Json :=
  (fields.find? (fun f => f.1 == name)).map (fun f => f.2)

/-- serde deserialization of an `f32` field: any JSON number. -/
def decodeF32 : Json → Option ℚ
  | .num q => some q
  | _ => none

/-- serde deserialization of a `u32`: a JSON number that is a
non-negative integer below `2^32`. -/
def decodeU32 : Json → Option Nat
  | .num q => if q.den = 1 ∧ 0 ≤ q.num ∧ q.num < 4294967296 then some q.num.toNat else none
  | _ => none

/-- serde deserialization of a `String`. -/
def decodeStr : Json → Option String
  | .str s => some s
  | _ => none

/-- Effectful map over a list in the `Option` monad: all elements must
succeed, in order (the semantics of `collect()` on an iterator of
`Result`s). -/
def mapMO (f : α → Option β) : List α → Option (List β)
  | [] => some []
  | a :: as => do
    let b ← f a
    let bs ← mapMO f as
    pure (b :: bs)

/-- serde deserialization of a `Vec<T>` given an element decoder: a JSON
array whose every element decodes. -/
def decodeVec (dec : Json → Option α) : Json → Option (List α)
  | .arr elts => mapMO dec elts
  | _ => none

/-- Embeds `deserialize_tz` (lines 209–215): deserialize a `String`, then
`parse` it as a `Tz`; an unresolvable zone id is a decode error. -/
def deserialize_tz (j : Json) : Option Tz :=
  decodeStr j >>= Tz.parse

/-- Embeds `chrono::NaiveDateTime` at the precision produced by parsing
with format `%Y-%m-%dT%H:%M` (seconds and sub-seconds are zero). -/
structure NaiveDateTime where
  year : Nat
  month : Nat
  day : Nat
  hour : Nat
  minute : Nat
  deriving DecidableEq, Repr

/-- Embeds `chrono::NaiveDate`. -/
structure NaiveDate where
  year : Nat
  month : Nat
  day : Nat
  deriving DecidableEq, Repr

/-- Decimal value of a digit character, failing on non-digits. -/
def digitVal (c : Char) : Option Nat :=
  if c.isDigit then some (c.toNat - 48) else none

/-- A two-digit decimal number. -/
def num2 (a b : Char) : Option Nat := do
  let x ← digitVal a
  let y ← digitVal b
  pure (10 * x + y)

/-- A four-digit decimal number. -/
def num4 (a b c d : Char) : Option Nat := do
  let x ← num2 a b
  let y ← num2 c d
  pure (100 * x + y)

/-- Gregorian leap-year rule, as `chrono` validates dates. -/
def isLeapYear (y : Nat) : Bool :=
  y % 4 == 0 && (y % 100 != 0 || y % 400 == 0)

/-- Days in a month, as `chrono` validates dates. -/
def daysInMonth (y m : Nat) : Nat :=
  if m = 2 then (if isLeapYear y then 29 else 28)
  else if m = 4 ∨ m = 6 ∨ m = 9 ∨ m = 11 then 30
  else 31

/-- Calendar validity of year/month/day, as `chrono` enforces when
building a date from parsed fields. -/
def validYmd (y m d : Nat) : Bool :=
  1 ≤ m && m ≤ 12 && 1 ≤ d && d ≤ daysInMonth y m

/-- Model of `NaiveDateTime::parse_from_str(s, "%Y-%m-%dT%H:%M")` on the
canonical zero-padded form: four year digits, `-`, two month digits, `-`,
two day digits, `T`, two hour digits, `:`, two minute digits, with the
calendar and clock fields in range. -/
def parseNaiveDateTime (s : String) : Option NaiveDateTime :=
  match s.data with
  | [y1, y2, y3, y4, '-', m1, m2, '-', d1, d2, 'T', h1, h2, ':', n1, n2] => do
    let y ← num4 y1 y2 y3 y4
    let m ← num2 m1 m2
    let d ← num2 d1 d2
    let h ← num2 h1 h2
    let n ← num2 n1 n2
    if validYmd y m d ∧ h ≤ 23 ∧ n ≤ 59 then pure ⟨y, m, d, h, n⟩ else none
  | _ => none

/-- Model of `chrono::NaiveDate`'s serde deserialization: an ISO
`%Y-%m-%d` string with fields in range. -/
def parseNaiveDate (s : String) : Option NaiveDate :=
  match s.data with
  | [y1, y2, y3, y4, '-', m1, m2, '-', d1, d2] => do
    let y ← num4 y1 y2 y3 y4
    let m ← num2 m1 m2
    let d ← num2 d1 d2
    if validYmd y m d then pure ⟨y, m, d⟩ else none
  | _ => none

/-- Embeds `deserialize_date_vec` (lines 247–257): deserialize a
`Vec<String>`, then parse each entry with `%Y-%m-%dT%H:%M`. -/
def deserialize_date_vec (j : Json) : Option (List NaiveDateTime) :=
  decodeVec decodeStr j >>= mapMO parseNaiveDateTime

/-- Embeds `deserialize_weather_code_vec` (lines 259–265): deserialize a
`Vec<u32>`, then convert each entry with `From<u32>` (never fails). -/
def deserialize_weather_code_vec (j : Json) : Option (List WeatherCode) :=
  (decodeVec decodeU32 j).map (fun v => v.map WeatherCode.fromCode)

/-- Embeds `struct HourlyWeatherData` (lines 225–234). -/
structure HourlyWeatherData where
  time : List NaiveDateTime
  weather_code : List WeatherCode
  temperature_2m : List ℚ
  apparent_temperature : List ℚ
  wind_speed_10m : List ℚ
  deriving DecidableEq, Repr

/-- Embeds `struct DailyWeatherData` (lines 236–245). -/
structure DailyWeatherData where
  time : List NaiveDate
  weather_code : List WeatherCode
  temperature_2m_min : List ℚ
  temperature_2m_max : List ℚ
  apparent_temperature_min : List ℚ
  apparent_temperature_max : List ℚ
  deriving DecidableEq, Repr

/-- Embeds `struct WeatherForecastResp` (lines 217–223). -/
structure WeatherForecastResp where
  timezone : Tz
  hourly : HourlyWeatherData
  daily : DailyWeatherData
  deriving DecidableEq, Repr

/-- Embeds `struct IpGeolocationResp` (lines 199–207); `lat` and `lon`
are `f32` fields, modelled as exact rationals. -/
structure IpGeolocationResp where
  latitude : ℚ
  longitude : ℚ
  timezone : Tz
  deriving DecidableEq, Repr

/-- Embeds the serde-derived deserializer of `HourlyWeatherData`: a JSON
object whose declared fields are each present and decode; unknown fields
are ignored; no cross-field validation is performed. -/
def decodeHourlyWeatherData (j : Json) : Option HourlyWeatherData :=
  match j with
  | .obj fs => do
    let time ← getField fs "time" >>= deserialize_date_vec
    let weather_code ← getField fs "weather_code" >>= deserialize_weather_code_vec
    let temperature_2m ← getField fs "temperature_2m" >>= decodeVec decodeF32
    let apparent_temperature ← getField fs "apparent_temperature" >>= decodeVec decodeF32
    let wind_speed_10m ← getField fs "wind_speed_10m" >>= decodeVec decodeF32
    pure ⟨time, weather_code, temperature_2m, apparent_temperature, wind_speed_10m⟩
  | _ => none

/-- Embeds the serde-derived deserializer of `DailyWeatherData`. -/
def decodeDailyWeatherData (j : Json) : Option DailyWeatherData :=
  match j with
  | .obj fs => do
    let time ← getField fs "time" >>= fun x => decodeVec decodeStr x >>= mapMO parseNaiveDate
    let weather_code ← getField fs "weather_code" >>= deserialize_weather_code_vec
    let temperature_2m_min ← getField fs "temperature_2m_min" >>= decodeVec decodeF32
    let temperature_2m_max ← getField fs "temperature_2m_max" >>= decodeVec decodeF32
    let apparent_temperature_min ← getField fs "apparent_temperature_min" >>= decodeVec decodeF32
    let apparent_temperature_max ← getField fs "apparent_temperature_max" >>= decodeVec decodeF32
    pure ⟨time, weather_code, temperature_2m_min, temperature_2m_max,
          apparent_temperature_min, apparent_temperature_max⟩
  | _ => none

/-- Embeds the serde-derived deserializer of `WeatherForecastResp`. -/
def decodeWeatherForecastResp (j : Json) : Option WeatherForecastResp :=
  match j with
  | .obj fs => do
    let timezone ← getField fs "timezone" >>= deserialize_tz
    let hourly ← getField fs "hourly" >>= decodeHourlyWeatherData
    let daily ← getField fs "daily" >>= decodeDailyWeatherData
    pure ⟨timezone, hourly, daily⟩
  | _ => none

/-- Embeds the serde-derived deserializer of `IpGeolocationResp`
(`lat` and `lon` renamed from the payload's field names). -/
def decodeIpGeolocationResp (j : Json) : Option IpGeolocationResp :=
  match j with
  | .obj fs => do
    let latitude ← getField fs "lat" >>= decodeF32
    let longitude ← getField fs "lon" >>= decodeF32
    let timezone ← getField fs "timezone" >>= deserialize_tz
    pure ⟨latitude, longitude, timezone⟩
  | _ => none

/-- Decimal digits of the fraction `num/den` (with `num < den`), most
significant first, stopping at an exact zero remainder or when the fuel
runs out. -/
def fracDigits (fuel num den : Nat) : List Char :=
  match fuel with
  | 0 => []
  | fuel + 1 =>
    if num = 0 then []
    else Char.ofNat (48 + num * 10 / den) :: fracDigits fuel (num * 10 % den) den

/-- Decimal rendering of a numeric value: stands in for Rust's `f32`
`Display` in the `format!` interpolation (sign, integer part, and the
fraction digits when non-zero). -/
def fmtF32 (q : ℚ) : String :=
  let sign := if q.num < 0 then "-" else ""
  let na := q.num.natAbs
  let ip := na / q.den
  let fr := na % q.den
  if fr = 0 then sign ++ Nat.repr ip
  else sign ++ Nat.repr ip ++ "." ++ String.mk (fracDigits 64 fr q.den)

/-- Character-level substitution: every occurrence of `c` becomes the
replacement string `rep`. -/
def replaceChar (c : Char) (rep : List Char) : List Char → List Char
  | [] => []
  | x :: xs => if x = c then rep ++ replaceChar c rep xs else x :: replaceChar c rep xs

/-- Embeds `.replace('/', "%2F")` as applied to the rendered timezone in
`fetch_forecast`: percent-encode the zone id's `/` separators. -/
def encodeTz (s : String) : String :=
  String.mk (replaceChar '/' "%2F".data s.data)

/-- Embeds the `format!` call of `WeatherState::fetch_forecast`
(lines 76–81): the forecast URL with the latitude, longitude and
timezone interpolations as arguments. -/
def forecastUrl (latS lonS tzS : String) : String :=
  "https://api.open-meteo.com/v1/forecast?latitude=" ++ latS ++
  "&longitude=" ++ lonS ++
  "&hourly=temperature_2m,apparent_temperature,weather_code,wind_speed_10m" ++
  "&daily=weather_code,temperature_2m_max,temperature_2m_min,apparent_temperature_max,apparent_temperature_min" ++
  "&timezone=" ++ tzS ++
  "&forecast_days=2"

/-- Embeds `struct WeatherState` (lines 8–15). -/
structure WeatherState where
  fetch_state : FetchState
  forecast : Option WeatherForecastResp
  last_updated : Option DateTimeUtc
  last_requested : Option DateTimeUtc
  last_rendered : Option DateTimeUtc
  rendered : String
  deriving DecidableEq, Repr

/-- Embeds `WeatherState::new` (lines 18–27). -/
def WeatherState.new : WeatherState :=
  ⟨.Idle, none, none, none, none, ""⟩

/-- Embeds the `zellij_tile::Event` cases this code observes:
`WebRequestResult(status, headers, body, context)` plus a stand-in for
every other event variant. -/
inductive Event
  | WebRequestResult (status : Nat) (headers : List (String × String))
      (body : List Nat) (context : List (String × String))
  | Other
  deriving DecidableEq, Repr

/-- Embeds `WeatherState::run` (lines 29–38): unconditionally enter
`FetchingLocation` and issue the geolocation request with an empty
correlation context (no `api` tag, and `last_requested` not recorded). -/
def WeatherState.run (s : WeatherState) : WeatherState × List WebRequest :=
  ({ s with fetch_state := .FetchingLocation },
   [⟨"http://ip-api.com/json/", .Get, [], [], []⟩])

/-- Embeds `WeatherState::fetch_location` (lines 60–72): unconditionally
enter `FetchingLocation`, issue the geolocation request tagged
`api=location`, and record `last_requested = now` (`Utc::now()` is
modelled by the `now` argument). -/
def WeatherState.fetch_location (now : DateTimeUtc) (s : WeatherState) :
    WeatherState × List WebRequest :=
  ({ s with fetch_state := .FetchingLocation, last_requested := some now },
   [⟨"http://ip-api.com/json/", .Get, [], [], [("api", "location")]⟩])

/-- Embeds `WeatherState::fetch_forecast` (lines 74–86): unconditionally
enter `FetchingForecast`, issue the forecast request tagged
`api=forecast` with the URL built by `format!` — the timezone rendered
with `'/'` replaced by `"%2F"` — and record `last_requested = now`. -/
def WeatherState.fetch_forecast (now : DateTimeUtc) (loc : IpGeolocationResp)
    (s : WeatherState) : WeatherState × List WebRequest :=
  ({ s with fetch_state := .FetchingForecast, last_requested := some now },
   [⟨forecastUrl (fmtF32 loc.latitude) (fmtF32 loc.longitude)
       (encodeTz loc.timezone.render),
     .Get, [], [], [("api", "forecast")]⟩])

/-- Embeds `WeatherState::on_web_request` (lines 40–48): on a
`WebRequestResult` event, match on the fetch state — every arm of the
match is empty, so the handler mutates nothing and issues nothing. -/
def WeatherState.on_web_request (e : Event) (s : WeatherState) :
    WeatherState × List WebRequest :=
  match e with
  | .WebRequestResult _status _headers _body _context =>
    match s.fetch_state with
    | .Idle => (s, [])
    | .FetchingLocation => (s, [])
    | .FetchingForecast => (s, [])
  | .Other => (s, [])

/-- Embeds `WeatherState::on_timer` (lines 50–58): from `Idle`, when
`last_updated` is unset or its hour differs from `now`'s, call
`fetch_location`; every other case falls through to the wildcard arm. -/
def WeatherState.on_timer (now : DateTimeUtc) (s : WeatherState) :
    WeatherState × List WebRequest :=
  match s.fetch_state with
  | .Idle =>
    if (match s.last_updated with
        | none => true
        | some v => now.hour != v.hour)
    then WeatherState.fetch_location now s
    else (s, [])
  | _ => (s, [])

/-- Split a character list at every occurrence of a separator; the
separators are dropped and the (possibly empty) pieces returned in
order. -/
def splitOnChar (c : Char) : List Char → List (List Char)
  | [] => [[]]
  | x :: xs =>
    let r := splitOnChar c xs
    if x = c then [] :: r else (x :: r.headD []) :: r.tail

/-- Interpret one `key=value` piece of a query string. -/
def parseQueryParam (p : List Char) : String × String :=
  match splitOnChar '=' p with
  | [k, v] => (String.mk k, String.mk v)
  | _ => (String.mk p, "")

/-- The query parameters of a URL: the part after `?`, split at `&`,
each piece split at `=` into a key/value pair. -/
def queryParams (url : String) : List (String × String) :=
  match splitOnChar '?' url.data with
  | [_, q] => (splitOnChar '&' q).map parseQueryParam
  | _ => []

/-- A string usable verbatim inside a query value: free of the `?`, `&`
and `=` metacharacters. -/
def urlSafe (s : String) : Prop :=
  '?' ∉ s.data ∧ '&' ∉ s.data ∧ '=' ∉ s.data

instance (s : String) : Decidable (urlSafe s) := by
  unfold urlSafe; infer_instance

/-- The correlation tag of a response: the value stored at key `api` in
the request's context bag (the key written by `fetch_location` and
`fetch_forecast`). -/
def contextTag (context : List (String × String)) : Option String :=
  (context.find? (fun kv => kv.1 == "api")).map (fun kv => kv.2)

/-- The spec's pure refresh predicate, written from its words:
`shouldFetch(now, stage, lastUpdated) = stage == Idle AND (lastUpdated is
None OR now.hourOfDay != lastUpdated.hourOfDay)`; compared with the
decision taken by `on_timer`. -/
def shouldFetchSpec (now : DateTimeUtc) (stage : FetchState)
    (lastUpdated : Option DateTimeUtc) : Bool :=
  (stage == FetchState.Idle) &&
    (lastUpdated.isNone || lastUpdated.any (fun v => now.hour != v.hour))

/-- The spec's umbrella partition, written from its words: `Maybe` for
light/moderate drizzle, light snowfall, snow grains and light snow
showers; `Sure` for dense drizzle, freezing drizzle, all rain
severities, moderate/heavy snowfall, all rain showers, heavy snow
showers and thunderstorms; `No` for everything else; compared with
`need_umbrella`. -/
def needUmbrellaSpec (c : WeatherCode) : NeedsUmbrella :=
  if c ∈ [WeatherCode.DrizzleLight, .DrizzleModerate, .SnowFallSlight,
          .SnowGrains, .SnowShowersSlight] then .Maybe
  else if c ∈ [WeatherCode.DrizzleDense, .FreezingDrizzleLight,
          .FreezingDrizzleHeavy, .RainSlight, .RainModerate, .RainHeavy,
          .SnowFallModerate, .SnowFallHeavy, .RainShowersSlight,
          .RainShowersModerate, .RainShowersViolent, .SnowShowersHeavy,
          .Thunderstorm, .ThunderstormSlightHail,
          .ThunderstormHeavyHail] then .Sure
  else .No

/-- Assemble a forecast payload from raw components: the JSON object
shape produced by the forecast endpoint, with every leaf supplied by the
caller. -/
def mkForecastPayload (tz : String) (htimes : List String) (hcodes : List Nat)
    (htemp happ hwind : List ℚ) (dtimes : List String) (dcodes : List Nat)
    (dtmin dtmax datmin datmax : List ℚ) : Json :=
  .obj [("timezone", .str tz),
        ("hourly", .obj
          [("time", .arr (htimes.map .str)),
           ("weather_code", .arr (hcodes.map Json.natNum)),
           ("temperature_2m", .arr (htemp.map .num)),
           ("apparent_temperature", .arr (happ.map .num)),
           ("wind_speed_10m", .arr (hwind.map .num))]),
        ("daily", .obj
          [("time", .arr (dtimes.map .str)),
           ("weather_code", .arr (dcodes.map Json.natNum)),
           ("temperature_2m_min", .arr (dtmin.map .num)),
           ("temperature_2m_max", .arr (dtmax.map .num)),
           ("apparent_temperature_min", .arr (datmin.map .num)),
           ("apparent_temperature_max", .arr (datmax.map .num))])]

/-- A forecast payload whose hourly `temperature_2m` array (length 2)
disagrees with the hourly `time` array (length 1), every other field
well-formed: exercises the absence of length validation. -/
def mismatchedForecastPayload : Json :=
  mkForecastPayload "Asia/Seoul"
    ["2023-12-15T00:00"] [3] [1, 2] [1] [1]
    ["2023-12-15", "2023-12-16"] [3, 3] [0, 2] [5, 12] [-4, -1] [0, 9]

/-- A reference instant: 2023-12-15 09:30 UTC. -/
def tSample : DateTimeUtc := ⟨2023, 12, 15, 9, 30⟩

/-- A widget state waiting on a forecast response, with no cached
forecast yet. -/
def sFetchingForecast : WeatherState :=
  ⟨.FetchingForecast, none, none, some tSample, none, ""⟩

/-- The decoded geolocation of the repository's own test payload:
Tokyo at (35.694, 139.754). -/
def locTokyo : IpGeolocationResp :=
  ⟨mkRat 35694 1000, mkRat 139754 1000, ⟨"Asia/Tokyo"⟩⟩

/-- The resolvable zone id used by the decode witnesses. -/
def tzUTC : String := "UTC"

/-- An unresolvable zone id, for exercising the decode failure path. -/
def tzBogus : String := "Mars/Olympus"

/-!
## Helper lemmas
-/

/-- A list free of the separator splits to the single piece itself. -/
theorem splitOnChar_of_not_mem {c : Char} :
    ∀ {l : List Char}, c ∉ l → splitOnChar c l = [l]
  | [], _ => rfl
  | x :: xs, h => by
    have hx : x ≠ c := fun e => h (e ▸ List.mem_cons_self x xs)
    have hxs : c ∉ xs := fun m => h (List.mem_cons_of_mem x m)
    simp [splitOnChar, hx, splitOnChar_of_not_mem hxs]

/-- Splitting peels off a leading separator-free piece. -/
theorem splitOnChar_sep {c : Char} :
    ∀ {l : List Char} (r : List Char), c ∉ l →
      splitOnChar c (l ++ c :: r) = l :: splitOnChar c r
  | [], r, _ => by simp [splitOnChar]
  | x :: xs, r, h => by
    have hx : x ≠ c := fun e => h (e ▸ List.mem_cons_self x xs)
    have hxs : c ∉ xs := fun m => h (List.mem_cons_of_mem x m)
    simp [splitOnChar, hx, splitOnChar_sep r hxs]

/-- A character distinct from the separator and absent from both sides
is absent from the joined list. -/
theorem not_mem_append_cons {c d : Char} {l r : List Char}
    (hl : c ∉ l) (hd : c ≠ d) (hr : c ∉ r) : c ∉ l ++ d :: r := by
  simp [List.mem_append, List.mem_cons, hl, hd, hr]

/-- A well-formed `key=value` piece parses to its key and value. -/
theorem parseQueryParam_pair {k v : List Char} (hk : '=' ∉ k) (hv : '=' ∉ v) :
    parseQueryParam (k ++ '=' :: v) = (String.mk k, String.mk v) := by
  unfold parseQueryParam
  rw [splitOnChar_sep v hk, splitOnChar_of_not_mem hv]

/-- A URL of shape `pre?query` with no further `?` yields the split and
parsed query pieces. -/
theorem queryParams_eq {url : String} {pre q : List Char}
    (hurl : url.data = pre ++ '?' :: q) (hpre : '?' ∉ pre) (hq : '?' ∉ q) :
    queryParams url = (splitOnChar '&' q).map parseQueryParam := by
  unfold queryParams
  rw [hurl, splitOnChar_sep q hpre, splitOnChar_of_not_mem hq]

/-- Mapping a string decoder over wrapped strings succeeds with the
strings themselves. -/
theorem mapMO_str (l : List String) : mapMO decodeStr (l.map Json.str) = some l := by
  induction l with
  | nil => rfl
  | cons a as ih => simp [mapMO, decodeStr, ih]

/-- Mapping the number decoder over wrapped numbers succeeds with the
numbers themselves. -/
theorem mapMO_num (l : List ℚ) : mapMO decodeF32 (l.map Json.num) = some l := by
  induction l with
  | nil => rfl
  | cons a as ih => simp [mapMO, decodeF32, ih]

/-- Mapping the `u32` decoder over wrapped in-range naturals succeeds
with the naturals themselves. -/
theorem mapMO_u32 (l : List Nat) (h : ∀ n ∈ l, n < 4294967296) :
    mapMO decodeU32 (l.map Json.natNum) = some l := by
  induction l with
  | nil => rfl
  | cons a as ih =>
    have ha : a < 4294967296 := h a (List.mem_cons_self a as)
    have has : ∀ n ∈ as, n < 4294967296 := fun n hn => h n (List.mem_cons_of_mem a hn)
    simp [mapMO, decodeU32, Json.natNum, Rat.den_natCast, Rat.num_natCast,
      ih has, ha]

/-- `mapMO` succeeds exactly when every element decodes. -/
theorem mapMO_isSome_iff (f : α → Option β) (l : List α) :
    (mapMO f l).isSome = true ↔ ∀ a ∈ l, (f a).isSome = true := by
  induction l with
  | nil => simp [mapMO]
  | cons a as ih =>
    rw [show (∀ x ∈ a :: as, (f x).isSome = true) ↔
        ((f a).isSome = true ∧ ∀ x ∈ as, (f x).isSome = true) from
        List.forall_mem_cons, ← ih]
    cases hf : f a <;> cases hm : mapMO f as <;> simp [mapMO, hf, hm]

/-- The `u32` decoder on a wrapped natural succeeds exactly below
`2^32`. -/
theorem decodeU32_natNum (n : Nat) :
    decodeU32 (Json.natNum n) = if n < 4294967296 then some n else none := by
  by_cases h : n < 4294967296 <;>
    simp [decodeU32, Json.natNum, Rat.den_natCast, Rat.num_natCast, h]

/-- Decoding a `Vec<u32>` of wrapped naturals succeeds exactly when
every entry is below `2^32`. -/
theorem mapMO_u32_isSome_iff (l : List Nat) :
    (mapMO decodeU32 (l.map Json.natNum)).isSome = true ↔
      ∀ n ∈ l, n < 4294967296 := by
  have hsingle : ∀ n : Nat,
      ((if n < 4294967296 then some n else (none : Option Nat)).isSome = true) ↔
        n < 4294967296 := by
    intro n; by_cases h : n < 4294967296 <;> simp [h]
  rw [mapMO_isSome_iff]
  simp [decodeU32_natNum, List.forall_mem_map, hsingle]

/-- The serde-derived hourly-block decode on the assembled payload shape
reduces to the timestamp and weather-code decodes (the measurement
arrays always decode). -/
theorem decodeHourly_mk (htimes : List String) (hcodes : List Nat)
    (htemp happ hwind : List ℚ) :
    decodeHourlyWeatherData (.obj
        [("time", .arr (htimes.map .str)),
         ("weather_code", .arr (hcodes.map Json.natNum)),
         ("temperature_2m", .arr (htemp.map .num)),
         ("apparent_temperature", .arr (happ.map .num)),
         ("wind_speed_10m", .arr (hwind.map .num))]) =
      (mapMO parseNaiveDateTime htimes).bind fun htv =>
      (mapMO decodeU32 (hcodes.map Json.natNum)).bind fun hcv =>
      some ⟨htv, hcv.map WeatherCode.fromCode, htemp, happ, hwind⟩ := by
  cases h2 : mapMO parseNaiveDateTime htimes <;>
    cases h3 : mapMO decodeU32 (hcodes.map Json.natNum) <;>
      simp [decodeHourlyWeatherData, getField, List.find?,
        deserialize_date_vec, deserialize_weather_code_vec, decodeVec,
        decodeStr, h2, h3, mapMO_str, mapMO_num]

/-- The serde-derived daily-block decode on the assembled payload shape
reduces to the date and weather-code decodes. -/
theorem decodeDaily_mk (dtimes : List String) (dcodes : List Nat)
    (dtmin dtmax datmin datmax : List ℚ) :
    decodeDailyWeatherData (.obj
        [("time", .arr (dtimes.map .str)),
         ("weather_code", .arr (dcodes.map Json.natNum)),
         ("temperature_2m_min", .arr (dtmin.map .num)),
         ("temperature_2m_max", .arr (dtmax.map .num)),
         ("apparent_temperature_min", .arr (datmin.map .num)),
         ("apparent_temperature_max", .arr (datmax.map .num))]) =
      (mapMO parseNaiveDate dtimes).bind fun dtv =>
      (mapMO decodeU32 (dcodes.map Json.natNum)).bind fun dcv =>
      some ⟨dtv, dcv.map WeatherCode.fromCode, dtmin, dtmax, datmin, datmax⟩ := by
  cases h4 : mapMO parseNaiveDate dtimes <;>
    cases h5 : mapMO decodeU32 (dcodes.map Json.natNum) <;>
      simp [decodeDailyWeatherData, getField, List.find?,
        deserialize_weather_code_vec, decodeVec, decodeStr, h4, h5,
        mapMO_str, mapMO_num]

set_option maxRecDepth 4096 in
/-- The URL built by `fetch_forecast`'s `format!` call carries exactly
the six query parameters, in order, whenever the interpolated pieces are
free of URL metacharacters. -/
theorem forecastUrl_queryParams (lat lon tzE : String)
    (hlat : urlSafe lat) (hlon : urlSafe lon) (htz : urlSafe tzE) :
    queryParams (forecastUrl lat lon tzE) =
      [("latitude", lat), ("longitude", lon),
       ("hourly", "temperature_2m,apparent_temperature,weather_code,wind_speed_10m"),
       ("daily", "weather_code,temperature_2m_max,temperature_2m_min,apparent_temperature_max,apparent_temperature_min"),
       ("timezone", tzE), ("forecast_days", "2")] := by
  obtain ⟨hlatq, hlata, hlate⟩ := hlat
  obtain ⟨hlonq, hlona, hlone⟩ := hlon
  obtain ⟨htzq, htza, htze⟩ := htz
  have hdata : (forecastUrl lat lon tzE).data =
      "https://api.open-meteo.com/v1/forecast".data ++ '?' ::
        (("latitude".data ++ '=' :: lat.data) ++ '&' ::
         (("longitude".data ++ '=' :: lon.data) ++ '&' ::
          (("hourly".data ++ '=' :: "temperature_2m,apparent_temperature,weather_code,wind_speed_10m".data) ++ '&' ::
           (("daily".data ++ '=' :: "weather_code,temperature_2m_max,temperature_2m_min,apparent_temperature_max,apparent_temperature_min".data) ++ '&' ::
            (("timezone".data ++ '=' :: tzE.data) ++ '&' ::
             ("forecast_days".data ++ '=' :: "2".data)))))) := by
    simp only [forecastUrl, String.data_append, List.append_assoc, List.cons_append]
    rfl
  have h6a : '&' ∉ "forecast_days".data ++ '=' :: "2".data := by decide
  have h5a : '&' ∉ "timezone".data ++ '=' :: tzE.data :=
    not_mem_append_cons (by decide) (by decide) htza
  have h4a : '&' ∉ "daily".data ++ '=' :: "weather_code,temperature_2m_max,temperature_2m_min,apparent_temperature_max,apparent_temperature_min".data := by decide
  have h3a : '&' ∉ "hourly".data ++ '=' :: "temperature_2m,apparent_temperature,weather_code,wind_speed_10m".data := by decide
  have h2a : '&' ∉ "longitude".data ++ '=' :: lon.data :=
    not_mem_append_cons (by decide) (by decide) hlona
  have h1a : '&' ∉ "latitude".data ++ '=' :: lat.data :=
    not_mem_append_cons (by decide) (by decide) hlata
  have hq6 : '?' ∉ "forecast_days".data ++ '=' :: "2".data := by decide
  have hq5 : '?' ∉ ("timezone".data ++ '=' :: tzE.data) ++ '&' ::
      ("forecast_days".data ++ '=' :: "2".data) :=
    not_mem_append_cons (not_mem_append_cons (by decide) (by decide) htzq) (by decide) hq6
  have hq4 : '?' ∉ ("daily".data ++ '=' :: "weather_code,temperature_2m_max,temperature_2m_min,apparent_temperature_max,apparent_temperature_min".data) ++ '&' ::
      (("timezone".data ++ '=' :: tzE.data) ++ '&' ::
       ("forecast_days".data ++ '=' :: "2".data)) :=
    not_mem_append_cons (by decide) (by decide) hq5
  have hq3 : '?' ∉ ("hourly".data ++ '=' :: "temperature_2m,apparent_temperature,weather_code,wind_speed_10m".data) ++ '&' ::
      (("daily".data ++ '=' :: "weather_code,temperature_2m_max,temperature_2m_min,apparent_temperature_max,apparent_temperature_min".data) ++ '&' ::
       (("timezone".data ++ '=' :: tzE.data) ++ '&' ::
        ("forecast_days".data ++ '=' :: "2".data))) :=
    not_mem_append_cons (by decide) (by decide) hq4
  have hq2 : '?' ∉ ("longitude".data ++ '=' :: lon.data) ++ '&' ::
      (("hourly".data ++ '=' :: "temperature_2m,apparent_temperature,weather_code,wind_speed_10m".data) ++ '&' ::
       (("daily".data ++ '=' :: "weather_code,temperature_2m_max,temperature_2m_min,apparent_temperature_max,apparent_temperature_min".data) ++ '&' ::
        (("timezone".data ++ '=' :: tzE.data) ++ '&' ::
         ("forecast_days".data ++ '=' :: "2".data)))) :=
    not_mem_append_cons (not_mem_append_cons (by decide) (by decide) hlonq) (by decide) hq3
  have hq1 : '?' ∉ ("latitude".data ++ '=' :: lat.data) ++ '&' ::
      (("longitude".data ++ '=' :: lon.data) ++ '&' ::
       (("hourly".data ++ '=' :: "temperature_2m,apparent_temperature,weather_code,wind_speed_10m".data) ++ '&' ::
        (("daily".data ++ '=' :: "weather_code,temperature_2m_max,temperature_2m_min,apparent_temperature_max,apparent_temperature_min".data) ++ '&' ::
         (("timezone".data ++ '=' :: tzE.data) ++ '&' ::
          ("forecast_days".data ++ '=' :: "2".data))))) :=
    not_mem_append_cons (not_mem_append_cons (by decide) (by decide) hlatq) (by decide) hq2
  rw [queryParams_eq hdata (by decide) hq1]
  rw [splitOnChar_sep _ h1a, splitOnChar_sep _ h2a, splitOnChar_sep _ h3a,
      splitOnChar_sep _ h4a, splitOnChar_sep _ h5a, splitOnChar_of_not_mem h6a]
  have e1 : parseQueryParam ("latitude".data ++ '=' :: lat.data) = ("latitude", lat) := by
    rw [parseQueryParam_pair (by decide) hlate]
  have e2 : parseQueryParam ("longitude".data ++ '=' :: lon.data) = ("longitude", lon) := by
    rw [parseQueryParam_pair (by decide) hlone]
  have e3 : parseQueryParam ("hourly".data ++ '=' :: "temperature_2m,apparent_temperature,weather_code,wind_speed_10m".data) =
      ("hourly", "temperature_2m,apparent_temperature,weather_code,wind_speed_10m") := by
    rw [parseQueryParam_pair (by decide) (by decide)]
  have e4 : parseQueryParam ("daily".data ++ '=' :: "weather_code,temperature_2m_max,temperature_2m_min,apparent_temperature_max,apparent_temperature_min".data) =
      ("daily", "weather_code,temperature_2m_max,temperature_2m_min,apparent_temperature_max,apparent_temperature_min") := by
    rw [parseQueryParam_pair (by decide) (by decide)]
  have e5 : parseQueryParam ("timezone".data ++ '=' :: tzE.data) = ("timezone", tzE) := by
    rw [parseQueryParam_pair (by decide) htze]
  have e6 : parseQueryParam ("forecast_days".data ++ '=' :: "2".data) = ("forecast_days", "2") := by
    rw [parseQueryParam_pair (by decide) (by decide)]
  simp only [List.map_cons, List.map_nil]
  rw [e1, e2, e3, e4, e5, e6]


/-!
## Claims
-/

/-- C1 counterexample: a payload whose hourly `temperature_2m` has
length 2 while hourly `time` has length 1 decodes successfully — no
length validation happens. -/
theorem C1_counterexample :
    (decodeWeatherForecastResp mismatchedForecastPayload).map
        (fun r => (r.hourly.time.length, r.hourly.temperature_2m.length)) =
      some (1, 2) := by decide

/-- C1 amended: decoding never validates array lengths — on a payload
carrying the expected field structure it succeeds exactly when the
timezone resolves, every hourly timestamp and daily date parses, and
every weather code is an in-range `u32`, whatever the lengths of the
arrays; any such per-value failure fails the decode, a length mismatch
never does. -/
theorem C1_amended_theorem (tz : String)
    (htimes : List String) (hcodes : List Nat) (htemp happ hwind : List ℚ)
    (dtimes : List String) (dcodes : List Nat) (dtmin dtmax datmin datmax : List ℚ) :
    (decodeWeatherForecastResp
        (mkForecastPayload tz htimes hcodes htemp happ hwind
          dtimes dcodes dtmin dtmax datmin datmax)).isSome = true ↔
      ((Tz.parse tz).isSome = true ∧
       (∀ s ∈ htimes, (parseNaiveDateTime s).isSome = true) ∧
       (∀ n ∈ hcodes, n < 4294967296) ∧
       (∀ s ∈ dtimes, (parseNaiveDate s).isSome = true) ∧
       (∀ n ∈ dcodes, n < 4294967296)) := by
  rw [← mapMO_isSome_iff parseNaiveDateTime htimes,
      ← mapMO_isSome_iff parseNaiveDate dtimes,
      ← mapMO_u32_isSome_iff hcodes, ← mapMO_u32_isSome_iff dcodes]
  rw [show decodeWeatherForecastResp
        (mkForecastPayload tz htimes hcodes htemp happ hwind
          dtimes dcodes dtmin dtmax datmin datmax) =
      (Tz.parse tz).bind fun tzv =>
      (decodeHourlyWeatherData (.obj
        [("time", .arr (htimes.map .str)),
         ("weather_code", .arr (hcodes.map Json.natNum)),
         ("temperature_2m", .arr (htemp.map .num)),
         ("apparent_temperature", .arr (happ.map .num)),
         ("wind_speed_10m", .arr (hwind.map .num))])).bind fun h =>
      (decodeDailyWeatherData (.obj
        [("time", .arr (dtimes.map .str)),
         ("weather_code", .arr (dcodes.map Json.natNum)),
         ("temperature_2m_min", .arr (dtmin.map .num)),
         ("temperature_2m_max", .arr (dtmax.map .num)),
         ("apparent_temperature_min", .arr (datmin.map .num)),
         ("apparent_temperature_max", .arr (datmax.map .num))])).bind fun d =>
      some ⟨tzv, h, d⟩ from by
    cases h1 : Tz.parse tz <;>
      simp [mkForecastPayload, decodeWeatherForecastResp, getField,
        List.find?, deserialize_tz, decodeStr, h1]]
  rw [decodeHourly_mk, decodeDaily_mk]
  cases h1 : Tz.parse tz <;>
    cases h2 : mapMO parseNaiveDateTime htimes <;>
      cases h3 : mapMO decodeU32 (hcodes.map Json.natNum) <;>
        cases h4 : mapMO parseNaiveDate dtimes <;>
          cases h5 : mapMO decodeU32 (dcodes.map Json.natNum) <;>
            simp [h1, h2, h3, h4, h5]

/-- C1 witness: the amended equivalence at concrete inputs — a payload
with two hourly timestamps, an empty `temperature_2m`, one hourly code,
one daily date and two daily codes (every length different) decodes
successfully, while the same shape with an unresolvable timezone id
fails. -/
theorem C1_witness :
    ((decodeWeatherForecastResp
        (mkForecastPayload tzUTC ["2024-01-01T00:00", "2024-01-01T01:00"] [0]
          [] [5] [] ["2024-01-01"] [3, 3] [1] [] [] [2])).isSome = true ↔
      ((Tz.parse tzUTC).isSome = true ∧
       (∀ s ∈ ["2024-01-01T00:00", "2024-01-01T01:00"],
          (parseNaiveDateTime s).isSome = true) ∧
       (∀ n ∈ [(0 : Nat)], n < 4294967296) ∧
       (∀ s ∈ ["2024-01-01"], (parseNaiveDate s).isSome = true) ∧
       (∀ n ∈ [(3 : Nat), 3], n < 4294967296))) ∧
    (decodeWeatherForecastResp
        (mkForecastPayload tzUTC ["2024-01-01T00:00", "2024-01-01T01:00"] [0]
          [] [5] [] ["2024-01-01"] [3, 3] [1] [] [] [2])).isSome = true ∧
    ¬ (decodeWeatherForecastResp
        (mkForecastPayload tzBogus ["2024-01-01T00:00"] [0]
          [1] [1] [1] ["2024-01-01"] [0] [1] [1] [1] [1])).isSome = true :=
  ⟨C1_amended_theorem tzUTC _ _ _ _ _ _ _ _ _ _ _,
   (C1_amended_theorem tzUTC _ _ _ _ _ _ _ _ _ _ _).mpr (by decide),
   fun hx =>
     absurd ((C1_amended_theorem tzBogus _ _ _ _ _ _ _ _ _ _ _).mp hx).1
       (by decide)⟩

/-- C2: at the claimed success input — stage `FetchingForecast`, a 2xx
response tagged `api=forecast` — the handler leaves every field
unchanged: no forecast is stored, `lastUpdated` stays unset, and the
stage does not return to `Idle`. -/
theorem C2_code_behavior :
    WeatherState.on_web_request
        (.WebRequestResult 200 [] [] [("api", "forecast")]) sFetchingForecast =
      (sFetchingForecast, []) ∧
    sFetchingForecast.forecast = none ∧
    sFetchingForecast.last_updated = none ∧
    sFetchingForecast.fetch_state = FetchState.FetchingForecast := by decide

/-- C3: at a failing input — stage `FetchingForecast`, a 500 response
tagged `api=forecast` — the cached forecast is indeed untouched and no
state is corrupted, but the stage stays `FetchingForecast` instead of
reverting to `Idle`. -/
theorem C3_code_behavior :
    (WeatherState.on_web_request
        (.WebRequestResult 500 [] [] [("api", "forecast")]) sFetchingForecast).1.fetch_state =
      FetchState.FetchingForecast ∧
    FetchState.FetchingForecast ≠ FetchState.Idle ∧
    (WeatherState.on_web_request
        (.WebRequestResult 500 [] [] [("api", "forecast")]) sFetchingForecast).1.forecast =
      sFetchingForecast.forecast := by decide

/-- C4 counterexample: with the stage at `FetchingForecast` (not
`Idle`), `fetch_location` — the function that issues the
`api=location`-tagged request and records `lastRequested` — is not a
no-op: it mutates the state and issues a request. -/
theorem C4_counterexample :
    sFetchingForecast.fetch_state ≠ FetchState.Idle ∧
    WeatherState.fetch_location tSample sFetchingForecast ≠ (sFetchingForecast, []) := by
  decide

/-- C4 amended: the Idle-only gate lives in the caller `on_timer`, which
does nothing outside `Idle`; `fetch_location` itself unconditionally
issues the geolocation request tagged `api=location`, sets the stage to
`FetchingLocation`, and records `lastRequested = now`, whatever the
current stage. -/
theorem C4_amended_theorem (now : DateTimeUtc) (s : WeatherState)
    (h : s.fetch_state ≠ FetchState.Idle) :
    WeatherState.on_timer now s = (s, []) ∧
    (WeatherState.fetch_location now s).1.fetch_state = FetchState.FetchingLocation ∧
    (WeatherState.fetch_location now s).1.last_requested = some now ∧
    (WeatherState.fetch_location now s).1.forecast = s.forecast ∧
    (WeatherState.fetch_location now s).2 =
      [⟨"http://ip-api.com/json/", HttpVerb.Get, [], [], [("api", "location")]⟩] := by
  refine ⟨?_, rfl, rfl, rfl, rfl⟩
  cases hf : s.fetch_state with
  | Idle => exact absurd hf h
  | FetchingLocation => simp [WeatherState.on_timer, hf]
  | FetchingForecast => simp [WeatherState.on_timer, hf]

/-- C4 witness: the amended statement at the `FetchingForecast` stage. -/
theorem C4_witness :
    sFetchingForecast.fetch_state ≠ FetchState.Idle ∧
    (WeatherState.on_timer tSample sFetchingForecast = (sFetchingForecast, []) ∧
     (WeatherState.fetch_location tSample sFetchingForecast).1.fetch_state = FetchState.FetchingLocation ∧
     (WeatherState.fetch_location tSample sFetchingForecast).1.last_requested = some tSample ∧
     (WeatherState.fetch_location tSample sFetchingForecast).1.forecast = sFetchingForecast.forecast ∧
     (WeatherState.fetch_location tSample sFetchingForecast).2 =
       [⟨"http://ip-api.com/json/", HttpVerb.Get, [], [], [("api", "location")]⟩]) :=
  ⟨by decide, C4_amended_theorem tSample sFetchingForecast (by decide)⟩

/-- C5: the timer-tick decision is exactly the spec's pure predicate
`shouldFetch`: `on_timer` calls `fetch_location` when it holds and does
nothing otherwise — hence hour-equality (any minute) suppresses the
fetch and an hour change starts one. -/
theorem C5_theorem (now : DateTimeUtc) (s : WeatherState) :
    WeatherState.on_timer now s =
      if shouldFetchSpec now s.fetch_state s.last_updated
      then WeatherState.fetch_location now s
      else (s, []) := by
  cases hf : s.fetch_state <;> cases hu : s.last_updated <;>
    simp [WeatherState.on_timer, shouldFetchSpec, hf, hu]

/-- C6: a response whose `(stage, tag)` pair does not match an active
stage — a `forecast` tag while `Idle`, a `location` tag while
`FetchingForecast`, or any other mismatch — changes no field of the
widget state. -/
theorem C6_theorem (status : Nat) (headers : List (String × String))
    (body : List Nat) (context : List (String × String)) (s : WeatherState)
    (_h : s.fetch_state = FetchState.Idle ∨
         (s.fetch_state = FetchState.FetchingLocation ∧ contextTag context ≠ some "location") ∨
         (s.fetch_state = FetchState.FetchingForecast ∧ contextTag context ≠ some "forecast")) :
    WeatherState.on_web_request (.WebRequestResult status headers body context) s = (s, []) := by
  cases hf : s.fetch_state <;> simp [WeatherState.on_web_request, hf]

/-- C6 witness: a `forecast`-tagged 200 response delivered in `Idle` is
ignored. -/
theorem C6_witness :
    (WeatherState.new.fetch_state = FetchState.Idle ∨
     (WeatherState.new.fetch_state = FetchState.FetchingLocation ∧
      contextTag [("api", "forecast")] ≠ some "location") ∨
     (WeatherState.new.fetch_state = FetchState.FetchingForecast ∧
      contextTag [("api", "forecast")] ≠ some "forecast")) ∧
    WeatherState.on_web_request
        (.WebRequestResult 200 [] [] [("api", "forecast")]) WeatherState.new =
      (WeatherState.new, []) :=
  ⟨Or.inl rfl, C6_theorem 200 [] [] [("api", "forecast")] WeatherState.new (Or.inl rfl)⟩

/-- C7 counterexample: raw code 61 classifies as the Rain-Slight
condition, not a Rain-Moderate-class condition. -/
theorem C7_counterexample :
    WeatherCode.fromCode 61 = WeatherCode.RainSlight ∧
    WeatherCode.fromCode 61 ≠ WeatherCode.RainModerate := by decide

/-- C7 amended: classify(61) is Rain-Slight with `Sure`; classify(51)
gives `Maybe`; classify(3) is Overcast with `No`; classify(42) is
Unknown 42 with `No`. -/
theorem C7_amended_theorem :
    WeatherCode.fromCode 61 = WeatherCode.RainSlight ∧
    (WeatherCode.fromCode 61).need_umbrella = NeedsUmbrella.Sure ∧
    (WeatherCode.fromCode 51).need_umbrella = NeedsUmbrella.Maybe ∧
    WeatherCode.fromCode 3 = WeatherCode.Overcast ∧
    (WeatherCode.fromCode 3).need_umbrella = NeedsUmbrella.No ∧
    WeatherCode.fromCode 42 = WeatherCode.Unknown 42 ∧
    (WeatherCode.fromCode 42).need_umbrella = NeedsUmbrella.No := by decide

/-- C8: `need_umbrella` is total and agrees with the spec's partition on
every variant, including `Unknown c` for every raw code `c`. -/
theorem C8_theorem (c : WeatherCode) : c.need_umbrella = needUmbrellaSpec c := by
  cases c <;> rfl

/-- C9: the forecast request built from a decoded geolocation carries
exactly the fixed `hourly`, `daily` and `forecast_days=2` parameters,
the interpolated coordinates, and a `timezone` parameter equal to the
zone id with `/` encoded as `%2F`. -/
theorem C9_theorem (now : DateTimeUtc) (s : WeatherState) (loc : IpGeolocationResp)
    (h1 : urlSafe (fmtF32 loc.latitude)) (h2 : urlSafe (fmtF32 loc.longitude))
    (h3 : urlSafe (encodeTz loc.timezone.render)) :
    (WeatherState.fetch_forecast now loc s).2.map (fun r => queryParams r.url) =
      [[("latitude", fmtF32 loc.latitude), ("longitude", fmtF32 loc.longitude),
        ("hourly", "temperature_2m,apparent_temperature,weather_code,wind_speed_10m"),
        ("daily", "weather_code,temperature_2m_max,temperature_2m_min,apparent_temperature_max,apparent_temperature_min"),
        ("timezone", encodeTz loc.timezone.render),
        ("forecast_days", "2")]] := by
  simp [WeatherState.fetch_forecast, forecastUrl_queryParams _ _ _ h1 h2 h3]

/-- C9 witness: the request for Tokyo at (35.694, 139.754) with zone id
`Asia/Tokyo`, whose timezone parameter is `Asia%2FTokyo`. -/
theorem C9_witness :
    urlSafe (fmtF32 locTokyo.latitude) ∧
    urlSafe (fmtF32 locTokyo.longitude) ∧
    urlSafe (encodeTz locTokyo.timezone.render) ∧
    encodeTz locTokyo.timezone.render = "Asia%2FTokyo" ∧
    (WeatherState.fetch_forecast tSample locTokyo WeatherState.new).2.map
        (fun r => queryParams r.url) =
      [[("latitude", fmtF32 locTokyo.latitude), ("longitude", fmtF32 locTokyo.longitude),
        ("hourly", "temperature_2m,apparent_temperature,weather_code,wind_speed_10m"),
        ("daily", "weather_code,temperature_2m_max,temperature_2m_min,apparent_temperature_max,apparent_temperature_min"),
        ("timezone", encodeTz locTokyo.timezone.render),
        ("forecast_days", "2")]] :=
  ⟨by decide, by decide, by decide, by decide,
   C9_theorem tSample WeatherState.new locTokyo (by decide) (by decide) (by decide)⟩

/-- C10: for every inbound event — any status, headers, body, context —
and every current state, `on_web_request` returns the state unchanged in
every field and issues no request. -/
theorem C10_theorem (e : Event) (s : WeatherState) :
    WeatherState.on_web_request e s = (s, []) := by
  cases e with
  | WebRequestResult status headers body context =>
    cases h : s.fetch_state <;> simp [WeatherState.on_web_request, h]
  | Other => rfl

end WeatherRs
